import Mathlib

/-!
Verification development for the `pdf` crate (crates `pdf`, sources under
`src/pdf/src/`): a shallow embedding, in Lean, of the lexer, the parser,
the xref-stream decoder, the page-tree walk, the inheritance resolution
and the RC4-based standard security handler, together with theorems about
their behaviour.

Conventions of the embedding:
* Rust byte slices (`&[u8]`) become `List Nat`, each element a byte value.
* Rust `u64`/`usize` become `Nat`; `i32` becomes `Int`.
* Fallible Rust functions (`Result<T>`) become `Except PdfError T`.
* A Rust panic (slice index out of bounds, failed `assert_eq!`) is modelled
  by the dedicated error value `PdfError.Panic`: it is not a `PdfError` of
  the source, only a marker for "the Rust code aborts here".
* Loops whose termination depends on the input are written with an explicit
  `fuel` argument and return `Option (Except PdfError α)`; `none` means the
  fuel ran out, and a result that is `none` for **every** fuel models a
  Rust loop that never terminates.
-/

namespace PdfV

/-- Error type, following `src/pdf/src/error.rs` (`enum PdfError`).
Only the payloads the embedded code inspects are carried; display strings
are dropped.  `InvalidPassword` is raised by `src/pdf/src/crypt.rs`.
`Panic` is not part of the source enum: it marks a Rust panic
(out-of-bounds index or failed assertion), see the module docstring. -/
inductive PdfError where
  | EOF
  | Parse
  | UnexpectedLexeme (pos : Nat) (lexeme : List Nat) (expected : List Nat)
  | UnknownType (pos : Nat) (first_lexeme : List Nat) (rest : List Nat)
  | NotFound (word : List Nat)
  | Reference
  | XRefStreamType (found : Nat)
  | HexDecode (pos : Nat) (bytes : List Nat)
  | MissingEntry (typ : String) (field : String)
  | FreeObject (obj_nr : Nat)
  | NullRef (obj_nr : Nat)
  | UnexpectedPrimitive (expected : String) (found : String)
  | PageOutOfBounds (page_nr max : Int)
  | PageNotFound (page_nr : Int)
  | InvalidPassword
  | Panic
  deriving Repr, DecidableEq

/-! ## Xref stream entry decoding (`src/pdf/src/parser/parse_xref.rs`) -/

/-- Modelled from the spec: the `XRef` enum itself lives in `src/pdf/src/xref.rs`,
which is not part of the sources; the three variants and their payloads are
taken from their construction sites in `parse_xref.rs` lines 25-27 and from
spec §3 ("XRefEntry — three variants"). -/
inductive XRef where
  | Free (next_obj_nr : Nat) (gen_nr : Nat)
  | Raw (pos : Nat) (gen_nr : Nat)
  | Stream (stream_id : Nat) (index : Nat)
  deriving Repr, DecidableEq

/-- Modelled from the spec: `XRefSection` (defined in the missing
`src/pdf/src/xref.rs`) per spec §3: "XRefSection = (first_id, Vec<XRefEntry>)".
`parse_xref.rs` builds it from `first_id : u32` and an entry vector. -/
structure XRefSection where
  first_id : Nat
  entries : List XRef
  deriving Repr, DecidableEq

/-- `read_u64_from_stream` (`parse_xref.rs` lines 38-47), specialised to a
natural-number width (the Rust loop `for i in 0..width` over an `i32` width
runs `width.toNat` times).  Reads `width` bytes big-endian, consuming them.
Rust indexes `data[0]` and panics when the slice is empty; that panic is the
`.error .Panic` case.  (For widths above 8 the Rust `u64` multiplication
would overflow; no caller uses such widths and the overflow is not modelled.) -/
def read_u64_from_stream : Nat → List Nat → Except PdfError (Nat × List Nat)
  | 0, data => .ok (0, data)
  | _ + 1, [] => .error .Panic
  | w + 1, c :: rest =>
    match read_u64_from_stream w rest with
    | .error e => .error e
    | .ok (v, remaining) => .ok (c * 256 ^ w + v, remaining)

/-- The entry constructor of `parse_xref_section_from_stream`
(`parse_xref.rs` lines 23-29): dispatch on the decoded `type` field. -/
def xref_entry_of_type (t field1 field2 : Nat) : Except PdfError XRef :=
  match t with
  | 0 => .ok (.Free field1 field2)
  | 1 => .ok (.Raw field1 field2)
  | 2 => .ok (.Stream field1 field2)
  | _ => .error (.XRefStreamType t)

/-- The entry-reading loop of `parse_xref_section_from_stream`
(`parse_xref.rs` lines 16-31), reading `n` entries of widths
`w0`, `w1`, `w2`. -/
def read_xref_entries (w0 w1 w2 : Nat) :
    Nat → List Nat → Except PdfError (List XRef × List Nat)
  | 0, data => .ok ([], data)
  | n + 1, data =>
    match read_u64_from_stream w0 data with
    | .error e => .error e
    | .ok (t, d1) =>
      match read_u64_from_stream w1 d1 with
      | .error e => .error e
      | .ok (f1, d2) =>
        match read_u64_from_stream w2 d2 with
        | .error e => .error e
        | .ok (f2, d3) =>
          match xref_entry_of_type t f1 f2 with
          | .error e => .error e
          | .ok entry =>
            match read_xref_entries w0 w1 w2 n d3 with
            | .error e => .error e
            | .ok (entries, rest) => .ok (entry :: entries, rest)

/-- `parse_xref_section_from_stream` (`parse_xref.rs` lines 14-36).
`width` is the `/W` array (`&[i32]`); Rust indexes `width[0..=2]` and would
panic were it shorter than 3 (modelled as `Panic`).  The `&mut &[u8]` data
argument becomes an explicit leftover-list in the result.  `first_id` is
cast `i32 → u32` in the source; embedded as `Int.toNat`. -/
def parse_xref_section_from_stream (first_id num_entries : Int) (width : List Int)
    (data : List Nat) : Except PdfError (XRefSection × List Nat) :=
  if width.length < 3 then .error .Panic else
  match read_xref_entries (width.getD 0 0).toNat (width.getD 1 0).toNat
      (width.getD 2 0).toNat num_entries.toNat data with
  | .error e => .error e
  | .ok (entries, rest) => .ok (⟨first_id.toNat, entries⟩, rest)

/-- The `/Index`-chunking loop of `parse_xref_stream_and_trailer`
(`parse_xref.rs` lines 62-66): `index.chunks(2)` yields `(first_id, count)`
pairs; a trailing odd chunk would make Rust index `c[1]` out of bounds
(modelled as `Panic`).  The surrounding stream acquisition and trailer
handling are not embedded. -/
def parse_xref_sections_from_index (width : List Int) :
    List Int → List Nat → Except PdfError (List XRefSection × List Nat)
  | [], data => .ok ([], data)
  | [_], _ => .error .Panic
  | first_id :: num :: rest, data =>
    match parse_xref_section_from_stream first_id num width data with
    | .error e => .error e
    | .ok (sec, d1) =>
      match parse_xref_sections_from_index width rest d1 with
      | .error e => .error e
      | .ok (sections, d2) => .ok (sec :: sections, d2)

/-! ## Page tree walk (`src/pdf/src/file.rs`) -/

/-- `Rect` (`src/pdf/src/object/types.rs` lines 524-530).  The source fields
are `f32`; the numeric values play no role in any claim, so the coordinates
are carried as `Int` stand-ins. -/
structure Rect where
  left : Int
  bottom : Int
  right : Int
  top : Int
  deriving Repr, DecidableEq

/-- `Page` (`types.rs` lines 108-127), restricted to the fields the claims
read: the mandatory `/Parent` reference (an object id) and the optional
`/MediaBox`. -/
structure Page where
  parent : Nat
  media_box : Option Rect
  deriving Repr, DecidableEq

/-- `PagesNode` (`types.rs` lines 14-18) with a successfully dereferenced
page tree inlined: each `Ref<PagesNode>` kid of a `PageTree` is replaced by
the node it resolves to, so `File::deref` on a kid is the identity here.
The `Tree` payload carries the `kids` and `count` fields of the source
`PageTree` (`types.rs` lines 84-106); the inheritable fields are not needed
by the walk. -/
inductive PagesNode where
  | Tree (kids : List PagesNode) (count : Int)
  | Leaf (page : Page)

/-- The root `PageTree` (`types.rs`), fields used by `File::get_page`. -/
structure PageTree where
  kids : List PagesNode
  count : Int

/-- `File::find_page` (`file.rs` lines 143-166): iterate over the kids,
skipping a subtree when `offset + t.count < page_nr`, else descending into
it; at a leaf, return it when `offset` has reached `page_nr` (the source
`assert_eq!(offset, page_nr)` panics when `offset > page_nr`, modelled as
`Panic`); a fully traversed kid list yields `PageNotFound`. -/
def find_page : List PagesNode → Int → Int → Except PdfError Page
  | [], _, page_nr => .error (.PageNotFound page_nr)
  | .Tree tkids tcount :: rest, offset, page_nr =>
    if offset + tcount < page_nr then find_page rest (offset + tcount) page_nr
    else find_page tkids offset page_nr
  | .Leaf p :: rest, offset, page_nr =>
    if offset < page_nr then find_page rest (offset + 1) page_nr
    else if offset = page_nr then .ok p else .error .Panic

/-- `File::get_page` (`file.rs` lines 167-172): bounds check against
`get_num_pages` (the root tree's `count`), then `find_page` from offset 0. -/
def get_page (root : PageTree) (n : Int) : Except PdfError Page :=
  if n ≥ root.count then .error (.PageOutOfBounds n root.count)
  else find_page root.kids 0 n

/-- First leaf of the example page tree `c1Tree`. -/
def c1Page1 : Page := ⟨1, none⟩
/-- Second leaf of the example page tree `c1Tree`. -/
def c1Page2 : Page := ⟨2, none⟩
/-- Third leaf of the example page tree `c1Tree`. -/
def c1Page3 : Page := ⟨3, none⟩

/-- A well-formed page tree: an inner `Pages` node holding two leaves
(`count` 2) followed by a sibling leaf; every `count` equals the number of
leaf descendants, as invariant (c) of the spec requires. -/
def c1Tree : PageTree := ⟨[.Tree [.Leaf c1Page1, .Leaf c1Page2] 2, .Leaf c1Page3], 3⟩

/-! ## Lexer (`src/pdf/src/parser/lexer/mod.rs`)

The `Lexer` is a cursor over a byte buffer.  `next_word` contains one loop
whose termination depends on the input (the comment-skipping loop, lines
83-92); it is embedded with fuel.  The whitespace and word loops always
terminate (the cursor moves strictly towards an end of the buffer) and are
embedded by well-founded recursion. -/

/-- `Lexer::is_whitespace` (`lexer/mod.rs` lines 289-298). -/
def is_whitespace (buf : List Nat) (pos : Nat) : Bool :=
  if pos ≥ buf.length then false
  else
    buf.getD pos 0 == 32 || buf.getD pos 0 == 13 ||
    buf.getD pos 0 == 10 || buf.getD pos 0 == 9

/-- `Lexer::is_delimiter` (`lexer/mod.rs` lines 300-302): one of
`( ) < > [ ] { } / %`, false past the end of the buffer. -/
def is_delimiter (buf : List Nat) (pos : Nat) : Bool :=
  match buf[pos]? with
  | none => false
  | some b => [40, 41, 60, 62, 91, 93, 123, 125, 47, 37].contains b

/-- `Lexer::advance_pos` (`lexer/mod.rs` lines 129-141): move one byte
forward (EOF at `buf.len()`) or backward (EOF at 0). -/
def advance_pos (buf : List Nat) (forward : Bool) (pos : Nat) :
    Except PdfError Nat :=
  if forward then
    if pos < buf.length then .ok (pos + 1) else .error .EOF
  else
    if pos > 0 then .ok (pos - 1) else .error .EOF

/-- The whitespace-skipping loops of `next_word` (`lexer/mod.rs` lines
79-81, 89-91 and 122-124): advance while the current byte is whitespace.
The loop always terminates (each step moves the cursor strictly towards an
end of the buffer, where `advance_pos` reports `EOF`); it is nevertheless
written with fuel so that the whole lexer stays computable by the kernel —
any fuel above `buf.length + 1` is sufficient. -/
def skip_ws (buf : List Nat) (forward : Bool) :
    Nat → Nat → Option (Except PdfError Nat)
  | 0, _ => none
  | fuel + 1, pos =>
    if is_whitespace buf pos then
      match advance_pos buf forward pos with
      | .error e => some (.error e)
      | .ok p => skip_ws buf forward fuel p
    else some (.ok pos)

/-- The lexeme-reading loop of `next_word` (`lexer/mod.rs` lines 110-117):
advance while the byte is neither whitespace nor a delimiter; the source's
`new_pos == pos` break is kept although `advance_pos` never reports an
unchanged position.  Fuel as in `skip_ws`. -/
def skip_word (buf : List Nat) (forward : Bool) :
    Nat → Nat → Option (Except PdfError Nat)
  | 0, _ => none
  | fuel + 1, pos =>
    if !(is_whitespace buf pos) && !(is_delimiter buf pos) then
      match advance_pos buf forward pos with
      | .error e => some (.error e)
      | .ok new_pos =>
        if new_pos = pos then some (.ok pos) else skip_word buf forward fuel new_pos
    else some (.ok pos)

/-- `self.buf[pos+1..].iter().position(|&b| b == b'\n')`
(`lexer/mod.rs` line 84), generalised over the start offset. -/
def find_newline (buf : List Nat) (start : Nat) : Option Nat :=
  (buf.drop start).findIdx? (fun b => b == 10)

/-- The comment-skipping loop of `next_word` (`lexer/mod.rs` lines 83-92):
while the current byte is `%`, jump past the next newline if one exists
(`pos += off + 2`), then skip whitespace, and re-test.  Indexing
`self.buf[pos]` panics when `pos` is at or past the end of the buffer.
When no newline follows the `%`, the source leaves `pos` unchanged and the
loop body repeats forever; the fuel exposes this: a result of `none` for
every fuel is that non-termination.  `wsfuel` is the budget handed to each
inner whitespace skip. -/
def skip_comments (buf : List Nat) (forward : Bool) (wsfuel : Nat) :
    Nat → Nat → Option (Except PdfError Nat)
  | 0, _ => none
  | fuel + 1, pos =>
    match buf[pos]? with
    | none => some (.error .Panic)
    | some b =>
      if b = 37 then
        let pos1 := match find_newline buf (pos + 1) with
          | some off => pos + off + 2
          | none => pos
        match skip_ws buf forward wsfuel pos1 with
        | none => none
        | some (.error e) => some (.error e)
        | some (.ok pos2) => skip_comments buf forward wsfuel fuel pos2
      else some (.ok pos)

/-- `Lexer::new_substr` (`lexer/mod.rs` lines 153-165): fix a backward
range by the source's swap-and-shift, then slice; Rust's `&self.buf[range]`
panics when the range end exceeds the buffer length. -/
def new_substr (buf : List Nat) (s e : Nat) : Except PdfError (List Nat) :=
  let r := if s > e then (e + 1, s + 1) else (s, e)
  if buf.length < r.2 then .error .Panic
  else .ok ((buf.take r.2).drop r.1)

/-- `Lexer::next_word` (`lexer/mod.rs` lines 75-126): skip whitespace and
comments, then read either a delimiter lexeme (with the `<<`/`>>` pairing,
whose look-ahead `buf[pos+1]` panics at the buffer end), or a word lexeme
followed by a final whitespace skip.  Returns the lexeme and the new
position. -/
def next_word (buf : List Nat) (forward : Bool) (pos0 fuel : Nat) :
    Option (Except PdfError (List Nat × Nat)) :=
  match skip_ws buf forward fuel pos0 with
  | none => none
  | some (.error e) => some (.error e)
  | some (.ok posA) =>
  match skip_comments buf forward fuel fuel posA with
  | none => none
  | some (.error e) => some (.error e)
  | some (.ok pos) =>
    let start_pos := pos
    if is_delimiter buf pos then
      let c := buf.getD pos 0
      let double : Except PdfError Nat :=
        if c = 60 || c = 62 then
          match buf[pos + 1]? with
          | none => .error .Panic
          | some c2 => if c2 = c then advance_pos buf forward pos else .ok pos
        else .ok pos
      match double with
      | .error e => some (.error e)
      | .ok posB =>
        match advance_pos buf forward posB with
        | .error e => some (.error e)
        | .ok posC =>
          match new_substr buf start_pos posC with
          | .error e => some (.error e)
          | .ok sub => some (.ok (sub, posC))
    else
      match skip_word buf forward fuel pos with
      | none => none
      | some (.error e) => some (.error e)
      | some (.ok posD) =>
        match new_substr buf start_pos posD with
        | .error e => some (.error e)
        | .ok result =>
          match skip_ws buf forward fuel posD with
          | none => none
          | some (.error e) => some (.error e)
          | some (.ok posE) => some (.ok (result, posE))

/-- `struct Lexer` (`lexer/mod.rs` lines 18-21): cursor position and the
borrowed byte buffer. -/
structure Lexer where
  pos : Nat
  buf : List Nat
  deriving Repr, DecidableEq

/-- `Lexer::next` (`lexer/mod.rs` lines 32-36): forward `next_word`,
committing the returned position. -/
def Lexer.next (l : Lexer) (fuel : Nat) :
    Option (Except PdfError (List Nat × Lexer)) :=
  match next_word l.buf true l.pos fuel with
  | none => none
  | some (.error e) => some (.error e)
  | some (.ok (lexeme, p)) => some (.ok (lexeme, ⟨p, l.buf⟩))

/-- `Lexer::peek` (`lexer/mod.rs` lines 46-53): forward `next_word`
without committing the position; an `EOF` error is turned into the empty
substring `self.pos..self.pos`.  The cursor is unchanged by construction —
the Rust method takes `&self`, and the embedding returns no new lexer. -/
def Lexer.peek (l : Lexer) (fuel : Nat) : Option (Except PdfError (List Nat)) :=
  match next_word l.buf true l.pos fuel with
  | none => none
  | some (.error .EOF) => some (new_substr l.buf l.pos l.pos)
  | some (.error e) => some (.error e)
  | some (.ok (s, _)) => some (.ok s)

/-- `Lexer::next` with a fuel that suffices whenever the `next_word` loops
terminate at all: the whitespace and word loops run at most
`buf.length + 2` iterations from any position at or before the buffer end,
and each terminating comment iteration advances the cursor by at least two
bytes; a `none` result therefore means the Rust loop really never
finishes. -/
def Lexer.nextL (l : Lexer) : Option (Except PdfError (List Nat × Lexer)) :=
  Lexer.next l (l.buf.length + 2)

/-- `Lexer.peek` at the always-sufficient fuel, as `Lexer.nextL`. -/
def Lexer.peekL (l : Lexer) : Option (Except PdfError (List Nat)) :=
  Lexer.peek l (l.buf.length + 2)

/-- `Lexer::seek` (`lexer/mod.rs` lines 169-184) for absolute positioning:
order the old-to-new range, slice it (Rust panics past the buffer end), and
move the cursor. -/
def Lexer.seek_to (l : Lexer) (wanted : Nat) :
    Except PdfError (List Nat × Lexer) :=
  let r := if l.pos < wanted then (l.pos, wanted) else (wanted, l.pos)
  match new_substr l.buf r.1 r.2 with
  | .error e => .error e
  | .ok s => .ok (s, ⟨wanted, l.buf⟩)

/-- `Lexer::set_pos` (`lexer/mod.rs` lines 187-189). -/
def Lexer.set_pos (l : Lexer) (new_pos : Nat) : Except PdfError (List Nat × Lexer) :=
  Lexer.seek_to l new_pos

/-- `Lexer::offset_pos` (`lexer/mod.rs` lines 195-197). -/
def Lexer.offset_pos (l : Lexer) (offset : Nat) : Except PdfError (List Nat × Lexer) :=
  Lexer.seek_to l (l.pos + offset)

/-- `Lexer::next_expect` (`lexer/mod.rs` lines 61-68). -/
def Lexer.next_expect (l : Lexer) (fuel : Nat) (expected : List Nat) :
    Option (Except PdfError Lexer) :=
  match Lexer.next l fuel with
  | none => none
  | some (.error e) => some (.error e)
  | some (.ok (word, l1)) =>
    if word == expected then some (.ok l1)
    else some (.error (.UnexpectedLexeme l1.pos word expected))

/-- `Lexer::read_n` (`lexer/mod.rs` lines 263-274): take at most `n` bytes
(the clamp `self.buf.len() - 1` is the source's; its `usize` underflow on
an empty buffer is not modelled, `Nat` subtraction clamps at 0). -/
def Lexer.read_n (l : Lexer) (n : Nat) : Except PdfError (List Nat × Lexer) :=
  let start_pos := l.pos
  let pos := l.pos + n
  let pos := if pos ≥ l.buf.length then l.buf.length - 1 else pos
  if start_pos < l.buf.length then
    match new_substr l.buf start_pos pos with
    | .error e => .error e
    | .ok s => .ok (s, ⟨pos, l.buf⟩)
  else
    match new_substr l.buf 0 0 with
    | .error e => .error e
    | .ok s => .ok (s, ⟨pos, l.buf⟩)

/-- `Lexer::get_remaining_slice` (`lexer/mod.rs` lines 277-279):
`&self.buf[self.pos..]`, a panic when the cursor is past the end. -/
def Lexer.remaining (l : Lexer) : Except PdfError (List Nat) :=
  if l.buf.length < l.pos then .error .Panic else .ok (l.buf.drop l.pos)

/-! ## Primitives (`src/pdf/src/primitive.rs`, missing from the sources) -/

/-- `PlainRef` (used throughout `parser/mod.rs`): object number and
generation number (`ObjNr`/`GenNr`, both unsigned in the source). -/
structure PlainRef where
  id : Nat
  gen : Nat
  deriving Repr, DecidableEq

/-- Modelled from the spec: `Primitive` (its file `src/pdf/src/primitive.rs`
is not among the sources) per spec §3, with the constructions appearing in
`parser/mod.rs`.  Byte-level stand-ins: a `Name`, `String` and dictionary
key hold the raw bytes (the source's `String` values arise from
`from_utf8_unchecked` over those bytes); a `Number` keeps the originating
lexeme, because `f32` values are not modelled (no claim depends on float
semantics); a `Dictionary` is an insertion-ordered association list with
unique keys. -/
inductive Primitive where
  | Null
  | Boolean (b : Bool)
  | Integer (n : Int)
  | Number (lexeme : List Nat)
  | Name (bytes : List Nat)
  | String (bytes : List Nat)
  | Array (elems : List Primitive)
  | Dictionary (entries : List (List Nat × Primitive))
  | Stream (info : List (List Nat × Primitive)) (data : List Nat)
  | Reference (r : PlainRef)

/-- Modelled from the spec: `Dictionary::get` (spec §3: dictionary with
unique name keys). -/
def dict_get (d : List (List Nat × Primitive)) (key : List Nat) : Option Primitive :=
  match d with
  | [] => none
  | (k, v) :: rest => if k = key then some v else dict_get rest key

/-- Modelled from the spec: `Dictionary::insert` (spec §3: keys unique,
insertion order preserved): replace an existing binding in place, append a
new one. -/
def dict_insert (d : List (List Nat × Primitive)) (key : List Nat) (v : Primitive) :
    List (List Nat × Primitive) :=
  match d with
  | [] => [(key, v)]
  | (k, w) :: rest =>
    if k = key then (k, v) :: rest else (k, w) :: dict_insert rest key v

/-- Modelled from the spec: `Primitive::get_debug_name` (spec §4.4: a
fixed string per variant).  Declared outside the `Primitive` namespace
because the constructor `Primitive.String` would shadow the return type
there. -/
def get_debug_name : Primitive → String
  | .Null => "Null"
  | .Boolean _ => "Boolean"
  | .Integer _ => "Integer"
  | .Number _ => "Number"
  | .Name _ => "Name"
  | .String _ => "String"
  | .Array _ => "Array"
  | .Dictionary _ => "Dictionary"
  | .Stream _ _ => "Stream"
  | .Reference _ => "Reference"

/-- Modelled from the spec: `Primitive::as_integer` (spec §4.4: `i32` or
`UnexpectedPrimitive{expected:"Integer"}`). -/
def as_integer : Primitive → Except PdfError Int
  | .Integer n => .ok n
  | p => .error (.UnexpectedPrimitive "Integer" (get_debug_name p))

/-- ASCII decimal digit test. -/
def is_ascii_digit (c : Nat) : Bool := 48 ≤ c && c ≤ 57

/-- Decimal value of a digit string. -/
def digits_to_nat (s : List Nat) : Nat :=
  s.foldl (fun a c => a * 10 + (c - 48)) 0

/-- A non-empty all-digit string and its value; `none` otherwise. -/
def parse_digits (s : List Nat) : Option Nat :=
  if !s.isEmpty && s.all is_ascii_digit then some (digits_to_nat s) else none

/-- `Substr::to::<u64>` — Rust's `str::parse::<u64>`: an optional leading
`+`, then decimal digits, failing on overflow past `2^64 - 1`
(`PdfError::Parse` wraps the failure). -/
def parse_u64 (s : List Nat) : Except PdfError Nat :=
  let t := match s with | 43 :: rest => rest | _ => s
  match parse_digits t with
  | some v => if v < 2 ^ 64 then .ok v else .error .Parse
  | none => .error .Parse

/-- `Substr::to::<i32>` — Rust's `str::parse::<i32>`: optional sign, then
decimal digits, failing outside `[-2^31, 2^31 - 1]`. -/
def parse_i32 (s : List Nat) : Except PdfError Int :=
  match s with
  | 45 :: rest =>
    match parse_digits rest with
    | some v => if v ≤ 2 ^ 31 then .ok (-(v : Int)) else .error .Parse
    | none => .error .Parse
  | 43 :: rest =>
    match parse_digits rest with
    | some v => if v < 2 ^ 31 then .ok (v : Int) else .error .Parse
    | none => .error .Parse
  | _ =>
    match parse_digits s with
    | some v => if v < 2 ^ 31 then .ok (v : Int) else .error .Parse
    | none => .error .Parse

/-- `Substr::is_integer` (`lexer/mod.rs` lines 327-332): an `i32` parse
succeeds. -/
def Substr.is_integer (s : List Nat) : Bool :=
  match parse_i32 s with
  | .ok _ => true
  | .error _ => false

/-- `Substr::is_real_number` (`lexer/mod.rs` lines 333-338): an `f32`
parse succeeds.  Modelled for the decimal forms (optional sign, digits with
at most one decimal point, at least one digit); the exponent and
infinity/NaN forms of Rust's float grammar do not occur in PDF input and
are not modelled — no claim depends on this predicate's fine structure. -/
def Substr.is_real_number (s : List Nat) : Bool :=
  let t := match s with | 43 :: rest => rest | 45 :: rest => rest | _ => s
  t.all (fun c => is_ascii_digit c || c == 46) &&
  decide ((t.filter (fun c => c == 46)).length ≤ 1) &&
  t.any is_ascii_digit

/-! ## String sub-lexers (`src/pdf/src/parser/lexer/str.rs`, missing from
the sources) -/

/-- Octal digit test. -/
def is_octal_digit (c : Nat) : Bool := 48 ≤ c && c ≤ 55

/-- Modelled from the spec: the literal-string sub-lexer (`StringLexer`,
whose file `parser/lexer/str.rs` is not among the sources) per spec §4.3:
raw bytes with octal escapes `\ddd` (one to three digits, value mod 256),
the single-character escapes, line continuation `\` + newline (CR, LF or
CRLF), balanced nesting of parentheses, closing at depth 0; the consumed
byte count (including the closing parenthesis) is reported so the outer
lexer can skip past.  The input starts just after the opening `(`; an
unterminated string reports `EOF`.  An unknown escape keeps the escaped
character (PDF 1.7 §7.3.4.2). -/
def string_lexer_go : List Nat → Nat → List Nat → Nat → Except PdfError (List Nat × Nat)
  | [], _, _, _ => .error .EOF
  | c :: rest, depth, acc, consumed =>
    if c = 92 then
      match rest with
      | [] => .error .EOF
      | e :: rest2 =>
        if e = 110 then string_lexer_go rest2 depth (acc ++ [10]) (consumed + 2)
        else if e = 114 then string_lexer_go rest2 depth (acc ++ [13]) (consumed + 2)
        else if e = 116 then string_lexer_go rest2 depth (acc ++ [9]) (consumed + 2)
        else if e = 98 then string_lexer_go rest2 depth (acc ++ [8]) (consumed + 2)
        else if e = 102 then string_lexer_go rest2 depth (acc ++ [12]) (consumed + 2)
        else if e = 40 then string_lexer_go rest2 depth (acc ++ [40]) (consumed + 2)
        else if e = 41 then string_lexer_go rest2 depth (acc ++ [41]) (consumed + 2)
        else if e = 92 then string_lexer_go rest2 depth (acc ++ [92]) (consumed + 2)
        else if e = 10 then string_lexer_go rest2 depth acc (consumed + 2)
        else if e = 13 then
          match rest2 with
          | 10 :: rest3 => string_lexer_go rest3 depth acc (consumed + 3)
          | [] => .error .EOF
          | d :: rest3 => string_lexer_go (d :: rest3) depth acc (consumed + 2)
        else if is_octal_digit e then
          match rest2 with
          | d2 :: rest3 =>
            if is_octal_digit d2 then
              match rest3 with
              | d3 :: rest4 =>
                if is_octal_digit d3 then
                  string_lexer_go rest4 depth
                    (acc ++ [((e - 48) * 64 + (d2 - 48) * 8 + (d3 - 48)) % 256])
                    (consumed + 4)
                else
                  string_lexer_go (d3 :: rest4) depth
                    (acc ++ [(e - 48) * 8 + (d2 - 48)]) (consumed + 3)
              | [] =>
                string_lexer_go [] depth (acc ++ [(e - 48) * 8 + (d2 - 48)]) (consumed + 3)
            else string_lexer_go (d2 :: rest3) depth (acc ++ [e - 48]) (consumed + 2)
          | [] => string_lexer_go [] depth (acc ++ [e - 48]) (consumed + 2)
        else string_lexer_go rest2 depth (acc ++ [e]) (consumed + 2)
    else if c = 40 then string_lexer_go rest (depth + 1) (acc ++ [40]) (consumed + 1)
    else if c = 41 then
      if depth = 0 then .ok (acc, consumed + 1)
      else string_lexer_go rest (depth - 1) (acc ++ [41]) (consumed + 1)
    else string_lexer_go rest depth (acc ++ [c]) (consumed + 1)
termination_by l _ _ _ => l.length

/-- See `string_lexer_go`: decode a literal string from the bytes after
the opening `(`. -/
def string_lexer (tail : List Nat) : Except PdfError (List Nat × Nat) :=
  string_lexer_go tail 0 [] 0

/-- Whitespace bytes as the hex sub-lexer ignores them. -/
def is_ws_byte (c : Nat) : Bool := c == 32 || c == 13 || c == 10 || c == 9

/-- Hex digit value. -/
def hex_val (c : Nat) : Option Nat :=
  if 48 ≤ c ∧ c ≤ 57 then some (c - 48)
  else if 65 ≤ c ∧ c ≤ 70 then some (c - 55)
  else if 97 ≤ c ∧ c ≤ 102 then some (c - 87)
  else none

/-- Modelled from the spec: the hex-string sub-lexer (`HexStringLexer`,
also in the missing `parser/lexer/str.rs`) per spec §4.3: pairs of hex
digits become bytes, whitespace is ignored, an odd trailing digit is padded
with 0, `>` terminates, and a non-hex byte is the `HexDecode` error (its
`pos`/`bytes` payload is filled with the consumed count and the offending
byte).  The input starts just after the opening `<`; the consumed count
includes the closing `>`. -/
def hex_string_lexer_go : List Nat → List Nat → Nat → Option Nat →
    Except PdfError (List Nat × Nat)
  | [], _, _, _ => .error .EOF
  | c :: rest, acc, consumed, pending =>
    if c = 62 then
      match pending with
      | none => .ok (acc, consumed + 1)
      | some d => .ok (acc ++ [d * 16], consumed + 1)
    else if is_ws_byte c then hex_string_lexer_go rest acc (consumed + 1) pending
    else
      match hex_val c with
      | some v =>
        match pending with
        | none => hex_string_lexer_go rest acc (consumed + 1) (some v)
        | some d => hex_string_lexer_go rest (acc ++ [d * 16 + v]) (consumed + 1) none
      | none => .error (.HexDecode consumed [c])

/-- See `hex_string_lexer_go`. -/
def hex_string_lexer (tail : List Nat) : Except PdfError (List Nat × Nat) :=
  hex_string_lexer_go tail [] 0 none

/-! ## Parser (`src/pdf/src/parser/mod.rs`) -/

/-- The bytes of the keyword `stream`. -/
def kwStream : List Nat := [115, 116, 114, 101, 97, 109]
/-- The bytes of the keyword `endstream`. -/
def kwEndstream : List Nat := [101, 110, 100, 115, 116, 114, 101, 97, 109]
/-- The bytes of the dictionary key `Length`. -/
def keyLength : List Nat := [76, 101, 110, 103, 116, 104]
/-- The bytes of the keyword `true`. -/
def kwTrue : List Nat := [116, 114, 117, 101]
/-- The bytes of the keyword `false`. -/
def kwFalse : List Nat := [102, 97, 108, 115, 101]
/-- The bytes of the keyword `null`. -/
def kwNull : List Nat := [110, 117, 108, 108]
/-- The bytes of the expectation message `/ or >>` of the dictionary loop. -/
def expSlashOrGtGt : List Nat := [47, 32, 111, 114, 32, 62, 62]

mutual

/-- `parse_with_lexer` (`parser/mod.rs` lines 25-157): recursive descent
driven by the first lexeme.  `resolve` is the `Resolve` implementation
consulted for an indirect `/Length`.  The recursion (dictionary values and
array elements) is guarded by `fuel`; lexer calls use the always-sufficient
fuel of `Lexer.nextL`, so a `none` result means either the recursion
exceeded `fuel` levels or a lexer loop diverged.  Branch-by-branch mapping:
`<<` → dictionary then possibly stream (lines 28-65); integer → reference
rollback logic (lines 66-90); real number (lines 91-93, the value kept as
the raw lexeme); `/` name (lines 94-97); `[` array (lines 98-112); `(`
literal string (lines 113-128); `<` hex string (lines 129-143); `true`,
`false`, `null` (lines 144-149); otherwise `UnknownType` with a 50-byte
context read (line 151).  A stream with a negative resolved `/Length`
would cast to a huge `usize` in `offset_pos` and abort — modelled as
`Panic`. -/
def parse_with_lexer (resolve : PlainRef → Except PdfError Primitive) :
    Nat → Lexer → Option (Except PdfError (Primitive × Lexer))
  | 0, _ => none
  | fuel + 1, lexer =>
    match Lexer.nextL lexer with
    | none => none
    | some (.error e) => some (.error e)
    | some (.ok (first_lexeme, l1)) =>
      if first_lexeme = [60, 60] then
        match parse_dict_body resolve fuel [] l1 with
        | none => none
        | some (.error e) => some (.error e)
        | some (.ok (dict, l2)) =>
          match Lexer.peekL l2 with
          | none => none
          | some (.error e) => some (.error e)
          | some (.ok w) =>
            if w = kwStream then
              match Lexer.nextL l2 with
              | none => none
              | some (.error e) => some (.error e)
              | some (.ok (_, l3)) =>
                match (match dict_get dict keyLength with
                       | some (.Integer n) => .ok n
                       | some (.Reference r) =>
                         match resolve r with
                         | .error e => .error e
                         | .ok p => as_integer p
                       | _ => .error (.MissingEntry "<Stream>" "Length") :
                       Except PdfError Int) with
                | .error e => some (.error e)
                | .ok len =>
                  if len < 0 then some (.error .Panic)
                  else
                    match Lexer.offset_pos l3 len.toNat with
                    | .error e => some (.error e)
                    | .ok (stream_substr, l4) =>
                      match Lexer.next_expect l4 (l4.buf.length + 2) kwEndstream with
                      | none => none
                      | some (.error e) => some (.error e)
                      | some (.ok l5) => some (.ok (.Stream dict stream_substr, l5))
            else some (.ok (.Dictionary dict, l2))
      else if Substr.is_integer first_lexeme then
        let pos_bk := l1.pos
        match Lexer.nextL l1 with
        | none => none
        | some (.error e) => some (.error e)
        | some (.ok (second_lexeme, l2)) =>
          if Substr.is_integer second_lexeme then
            match Lexer.nextL l2 with
            | none => none
            | some (.error e) => some (.error e)
            | some (.ok (third_lexeme, l3)) =>
              if third_lexeme = [82] then
                match parse_u64 first_lexeme with
                | .error e => some (.error e)
                | .ok idv =>
                  match parse_u64 second_lexeme with
                  | .error e => some (.error e)
                  | .ok genv => some (.ok (.Reference ⟨idv, genv⟩, l3))
              else
                match Lexer.set_pos l3 pos_bk with
                | .error e => some (.error e)
                | .ok (_, l4) =>
                  match parse_i32 first_lexeme with
                  | .error e => some (.error e)
                  | .ok n => some (.ok (.Integer n, l4))
          else
            match Lexer.set_pos l2 pos_bk with
            | .error e => some (.error e)
            | .ok (_, l4) =>
              match parse_i32 first_lexeme with
              | .error e => some (.error e)
              | .ok n => some (.ok (.Integer n, l4))
      else if Substr.is_real_number first_lexeme then
        some (.ok (.Number first_lexeme, l1))
      else if first_lexeme = [47] then
        match Lexer.nextL l1 with
        | none => none
        | some (.error e) => some (.error e)
        | some (.ok (s, l2)) => some (.ok (.Name s, l2))
      else if first_lexeme = [91] then
        parse_array_body resolve fuel [] l1
      else if first_lexeme = [40] then
        match Lexer.remaining l1 with
        | .error e => some (.error e)
        | .ok tail =>
          match string_lexer tail with
          | .error e => some (.error e)
          | .ok (s, consumed) =>
            match Lexer.offset_pos l1 consumed with
            | .error e => some (.error e)
            | .ok (_, l2) => some (.ok (.String s, l2))
      else if first_lexeme = [60] then
        match Lexer.remaining l1 with
        | .error e => some (.error e)
        | .ok tail =>
          match hex_string_lexer tail with
          | .error e => some (.error e)
          | .ok (s, consumed) =>
            match Lexer.offset_pos l1 consumed with
            | .error e => some (.error e)
            | .ok (_, l2) => some (.ok (.String s, l2))
      else if first_lexeme = kwTrue then some (.ok (.Boolean true, l1))
      else if first_lexeme = kwFalse then some (.ok (.Boolean false, l1))
      else if first_lexeme = kwNull then some (.ok (.Null, l1))
      else
        match Lexer.read_n l1 50 with
        | .error e => some (.error e)
        | .ok (restBytes, _) =>
          some (.error (.UnknownType l1.pos first_lexeme restBytes))

/-- The dictionary loop of `parse_with_lexer` (`parser/mod.rs` lines
30-42): repeatedly expect `/` followed by a key lexeme and a recursively
parsed value, until `>>`; any other delimiter is `UnexpectedLexeme` with
expectation `/ or >>`. -/
def parse_dict_body (resolve : PlainRef → Except PdfError Primitive) :
    Nat → List (List Nat × Primitive) → Lexer →
    Option (Except PdfError (List (List Nat × Primitive) × Lexer))
  | 0, _, _ => none
  | fuel + 1, dict, lexer =>
    match Lexer.nextL lexer with
    | none => none
    | some (.error e) => some (.error e)
    | some (.ok (delimiter, l1)) =>
      if delimiter = [47] then
        match Lexer.nextL l1 with
        | none => none
        | some (.error e) => some (.error e)
        | some (.ok (key, l2)) =>
          match parse_with_lexer resolve fuel l2 with
          | none => none
          | some (.error e) => some (.error e)
          | some (.ok (obj, l3)) =>
            parse_dict_body resolve fuel (dict_insert dict key obj) l3
      else if delimiter = [62, 62] then some (.ok (dict, l1))
      else some (.error (.UnexpectedLexeme l1.pos delimiter expSlashOrGtGt))

/-- The array loop of `parse_with_lexer` (`parser/mod.rs` lines 98-112):
parse elements until a peeked `]`, then consume the `]`. -/
def parse_array_body (resolve : PlainRef → Except PdfError Primitive) :
    Nat → List Primitive → Lexer → Option (Except PdfError (Primitive × Lexer))
  | 0, _, _ => none
  | fuel + 1, arr, lexer =>
    match parse_with_lexer resolve fuel lexer with
    | none => none
    | some (.error e) => some (.error e)
    | some (.ok (element, l1)) =>
      match Lexer.peekL l1 with
      | none => none
      | some (.error e) => some (.error e)
      | some (.ok w) =>
        if w = [93] then
          match Lexer.nextL l1 with
          | none => none
          | some (.error e) => some (.error e)
          | some (.ok (_, l2)) => some (.ok (.Array (arr ++ [element]), l2))
        else parse_array_body resolve fuel (arr ++ [element]) l1

end

/-- `parse` (`parser/mod.rs` lines 19-21): run `parse_with_lexer` on a
fresh lexer over the data. -/
def parse (resolve : PlainRef → Except PdfError Primitive) (fuel : Nat)
    (data : List Nat) : Option (Except PdfError (Primitive × Lexer)) :=
  parse_with_lexer resolve fuel ⟨0, data⟩

/-- A resolver that refuses every reference, as `NO_RESOLVE` does
(`PdfError::Reference`: "no resolve fn given"). -/
def no_resolve : PlainRef → Except PdfError Primitive := fun _ => .error .Reference

/-- The bytes of `<</Length 1>> stream\n\nXendstream\n`: a stream
dictionary with `/Length 1` whose payload region after `stream` begins
with two newline bytes and then `X`. -/
def c4Input : List Nat :=
  [60, 60, 47, 76, 101, 110, 103, 116, 104, 32, 49, 62, 62, 32,
   115, 116, 114, 101, 97, 109, 10, 10, 88,
   101, 110, 100, 115, 116, 114, 101, 97, 109, 10]

/-- The exact 8 bytes `123 45 R`, with the `R` as the last byte of the
buffer. -/
def c8CounterInput : List Nat := [49, 50, 51, 32, 52, 53, 32, 82]

/-- The 9 bytes `123 45 R ` — as `c8CounterInput` with a trailing space. -/
def c8Input : List Nat := [49, 50, 51, 32, 52, 53, 32, 82, 32]

/-! ## Attribute inheritance (`src/pdf/src/object/types.rs`) -/

/-- A `PageTree` node as seen by `inherit` (`types.rs` lines 84-106): the
optional `/Parent` reference (an object id) and the inheritable `/MediaBox`
(the other inheritable fields play no role in the claim). -/
structure PageTreeNode where
  parent : Option Nat
  media_box : Option Rect
  deriving Repr, DecidableEq

/-- `inherit` (`types.rs` lines 128-140).  `env` models `File::deref` on
`Ref<PageTree>`; `f` is the field selector (`Fn(Rc<PageTree>) ->
Option<Result<T>>`).  The source `loop` follows `/Parent` references and
never terminates on a cyclic chain, hence the fuel: `none` means the fuel
ran out before the loop finished. -/
def inherit {α : Type} (env : Nat → Except PdfError PageTreeNode)
    (f : PageTreeNode → Option (Except PdfError α)) :
    Nat → Nat → Option (Except PdfError (Option α))
  | _, 0 => none
  | parent, fuel + 1 =>
    match env parent with
    | .error e => some (.error e)
    | .ok page_tree =>
      match page_tree.parent, f page_tree with
      | _, some t =>
        some (match t with | .ok v => .ok (some v) | .error e => .error e)
      | some p, none => inherit env f p fuel
      | none, none => some (.ok none)

/-- `Page::media_box` (`types.rs` lines 153-159): the page's own
`/MediaBox` if present, else `inherit` over the parent chain, else the
`MissingEntry` error.  (Named `media_box_resolved` because the Lean field
projection `Page.media_box` already carries the source's field name.) -/
def Page.media_box_resolved (page : Page)
    (env : Nat → Except PdfError PageTreeNode) (fuel : Nat) :
    Option (Except PdfError Rect) :=
  match page.media_box with
  | some b => some (.ok b)
  | none =>
    match inherit env (fun pt => pt.media_box.map Except.ok) page.parent fuel with
    | none => none
    | some (.error e) => some (.error e)
    | some (.ok (some b)) => some (.ok b)
    | some (.ok none) => some (.error (.MissingEntry "Page" "MediaBox"))

/-- The list of ancestor nodes obtained by dereferencing `/Parent`
references from `id` up to a root, when every dereference succeeds and a
root (a node without `/Parent`) is reached within `fuel` steps; `none`
otherwise.  This captures the claim's premise "whose parent chain
dereferences successfully". -/
def parentChain (env : Nat → Except PdfError PageTreeNode) :
    Nat → Nat → Option (List PageTreeNode)
  | _, 0 => none
  | id, fuel + 1 =>
    match env id with
    | .error _ => none
    | .ok pt =>
      match pt.parent with
      | none => some [pt]
      | some p => (parentChain env p fuel).map (fun l => pt :: l)

/-- The page used by the C5 witness: no own `/MediaBox`, parent id 1. -/
def c5Page : Page := ⟨1, none⟩
/-- Intermediate page-tree node of the C5 witness: no `/MediaBox`. -/
def c5Node1 : PageTreeNode := ⟨some 2, none⟩
/-- Root page-tree node of the C5 witness: carries the `/MediaBox`. -/
def c5Rect : Rect := ⟨0, 0, 612, 792⟩
/-- See `c5Rect`. -/
def c5Node2 : PageTreeNode := ⟨none, some c5Rect⟩
/-- Two-node dereference environment of the C5 witness. -/
def c5Env : Nat → Except PdfError PageTreeNode := fun id =>
  if id = 1 then .ok c5Node1
  else if id = 2 then .ok c5Node2
  else .error (.NullRef id)

/-! ## RC4 and the standard security handler (`src/pdf/src/crypt.rs`) -/

/-- The fixed 32-byte password padding (`crypt.rs` lines 6-11). -/
def PADDING : List Nat :=
  [0x28, 0xBF, 0x4E, 0x5E, 0x4E, 0x75, 0x8A, 0x41,
   0x64, 0x00, 0x4E, 0x56, 0xFF, 0xFA, 0x01, 0x08,
   0x2E, 0x2E, 0x00, 0xB6, 0xD0, 0x68, 0x3E, 0x80,
   0x2F, 0x0C, 0xA9, 0xFE, 0x64, 0x53, 0x69, 0x7A]

/-- `self.state.swap(a, b)` on the RC4 state list. -/
def listSwap (l : List Nat) (a b : Nat) : List Nat :=
  (l.set a (l.getD b 0)).set b (l.getD a 0)

/-- `struct Rc4` (`crypt.rs` lines 13-18): byte indices `i`, `j` and the
256-byte state, all held as `Nat` values below 256. -/
structure Rc4 where
  i : Nat
  j : Nat
  state : List Nat

/-- `Rc4::new` (`crypt.rs` lines 23-35): the key-scheduling algorithm.  The
`assert!(key.len() >= 1 && key.len() <= 256)` is carried as a hypothesis of
the involution theorem rather than inside the definition.  `u8` wrapping
addition becomes `% 256`. -/
def Rc4.new (key : List Nat) : Rc4 :=
  let p := (List.range 256).foldl
    (fun (acc : Nat × List Nat) i =>
      let j := (acc.1 + acc.2.getD i 0 + key.getD (i % key.length) 0) % 256
      (j, listSwap acc.2 i j))
    (0, List.range 256)
  ⟨0, 0, p.2⟩

/-- `Rc4::next` (`crypt.rs` lines 36-42): one step of the PRGA, returning
the keystream byte and the successor state. -/
def Rc4.next (r : Rc4) : Nat × Rc4 :=
  let i := (r.i + 1) % 256
  let j := (r.j + r.state.getD i 0) % 256
  let st := listSwap r.state i j
  (st.getD ((st.getD i 0 + st.getD j 0) % 256) 0, ⟨i, j, st⟩)

/-- The loop body of `Rc4::encrypt` (`crypt.rs` lines 43-48): XOR every
data byte with the next keystream byte, threading the PRGA state. -/
def Rc4.encryptBytes : Rc4 → List Nat → List Nat
  | _, [] => []
  | r, b :: rest =>
    let p := Rc4.next r
    (b ^^^ p.1) :: Rc4.encryptBytes p.2 rest

/-- `Rc4::encrypt` (`crypt.rs` lines 43-48): fresh KSA state from the key,
then the XOR loop.  The in-place `&mut [u8]` update is returned as a new
list. -/
def Rc4.encrypt (key data : List Nat) : List Nat :=
  Rc4.encryptBytes (Rc4.new key) data

/-- `struct CryptDict` (`crypt.rs` lines 52-68): `/O`, `/U` as byte
strings, revision `/R`, permissions `/P` (an `i32`), and `/Length` in bits. -/
structure CryptDict where
  o : List Nat
  u : List Nat
  r : Nat
  p : Int
  bits : Nat

/-- `struct Decoder` (`crypt.rs` lines 69-72): the 16-byte file key and the
number of key bytes in use. -/
structure Decoder where
  key : List Nat
  key_size : Nat

/-- `Decoder::key` (`crypt.rs` lines 77-79): `&self.key[..self.key_size]`
(a `key_size` above 16 would panic in Rust; `List.take` clamps, and no
claim exercises that case). -/
def Decoder.keyBytes (d : Decoder) : List Nat :=
  d.key.take d.key_size

/-- Steps a) and b) of `Decoder::from_password` (`crypt.rs` lines 91-96):
pad the password with the `PADDING` prefix to 32 bytes, or truncate. -/
def pad_password (pass : List Nat) : List Nat :=
  if pass.length < 32 then pass ++ PADDING.take (32 - pass.length)
  else pass.take 32

/-- `p.to_le_bytes()` for the `i32` permissions value (`crypt.rs` line
102): four little-endian bytes of the two's-complement representation. -/
def p_le_bytes (p : Int) : List Nat :=
  let v := (p % (2 ^ 32)).toNat
  [v % 256, v / 256 % 256, v / 256 ^ 2 % 256, v / 256 ^ 3 % 256]

/-- Algorithm-2 key derivation, steps a)-h) of `Decoder::from_password`
(`crypt.rs` lines 89-120).  MD5 comes from the external `md5` crate and is
taken as a function parameter of the embedding. -/
def derive_key (md5 : List Nat → List Nat) (dict : CryptDict)
    (id pass : List Nat) : List Nat :=
  let msg := pad_password pass ++ dict.o ++ p_le_bytes dict.p ++ id ++
    (if dict.r ≥ 4 then [0xff, 0xff, 0xff, 0xff] else [])
  let data := md5 msg
  let key_size := dict.bits / 8
  if dict.r ≥ 3 then (fun d => md5 (d.take key_size))^[50] data
  else data

/-- `Decoder::compute_u` (`crypt.rs` lines 132-158), Algorithm 5:
MD5 of padding and `/ID[0]`, one RC4 pass with the file key, then 19
further passes with every key byte XORed by the iteration counter. -/
def Decoder.compute_u (md5 : List Nat → List Nat) (d : Decoder)
    (id : List Nat) : List Nat :=
  let data := Rc4.encrypt d.keyBytes (md5 (PADDING ++ id))
  (List.range' 1 19).foldl
    (fun data i =>
      let key := d.key.map (fun b => b ^^^ i)
      Rc4.encrypt (key.take d.key_size) data)
    data

/-- `Decoder::check_password` (`crypt.rs` lines 159-161): compare the
recomputed `/U` with the first 16 bytes of the stored `/U` (Rust compares
`[u8; 16]` against `&u[..16]`; a `/U` shorter than 16 bytes would panic
there, while `List.take` clamps — no claim exercises that case). -/
def Decoder.check_password (md5 : List Nat → List Nat) (d : Decoder)
    (dict : CryptDict) (id : List Nat) : Bool :=
  Decoder.compute_u md5 d id == dict.u.take 16

/-- `Decoder::from_password` (`crypt.rs` lines 80-131): derive the file
key, then accept or reject via `check_password`. -/
def Decoder.from_password (md5 : List Nat → List Nat) (dict : CryptDict)
    (id pass : List Nat) : Except PdfError Decoder :=
  let decoder : Decoder := ⟨derive_key md5 dict id pass, dict.bits / 8⟩
  if Decoder.check_password md5 decoder dict id then .ok decoder
  else .error .InvalidPassword

end PdfV

namespace PdfV

/-! ## Theorems -/

/-- **C1** (code bug).  On the three-leaf page tree `c1Tree` (leaf count 3,
all `count` fields consistent), `get_page 0` and `get_page 1` succeed and
`get_page 3` is `PageOutOfBounds` as the claim demands — but `get_page 2`,
although `2 ∈ [0, 3)`, fails with `PageNotFound`: `find_page` skips a
subtree only when `offset + count < page_nr`, so for `page_nr = offset +
count` it descends into the subtree that ends exactly at `page_nr` instead
of moving past it, exhausts it, and reports `PageNotFound`. -/
theorem C1_get_page_loses_boundary_page :
    get_page c1Tree 0 = .ok c1Page1 ∧
    get_page c1Tree 1 = .ok c1Page2 ∧
    get_page c1Tree 2 = .error (.PageNotFound 2) ∧
    get_page c1Tree 3 = .error (.PageOutOfBounds 3 3) := by
  refine ⟨?_, ?_, ?_, ?_⟩ <;>
    simp [get_page, c1Tree, find_page, c1Page1, c1Page2, c1Page3]

/-- **C2** (code bug).  Decoding one xref-stream entry with `/W = [0 1 1]`
and payload bytes `10 00`: the claim (and PDF 1.7) requires the zero-width
type field to default to 1, giving `Raw(offset=16, gen=0)`; the code reads
a zero-width field as the value 0 (`read_u64_from_stream` with width 0
returns 0) and decodes the entry as `Free(next_obj=16, gen=0)`.  The
source's own comment at `parse_xref.rs` line 18 records the missing default
handling. -/
theorem C2_zero_width_type_decodes_as_free :
    parse_xref_section_from_stream 0 1 [0, 1, 1] [16, 0]
      = .ok (⟨0, [.Free 16 0]⟩, []) := rfl

/-- **C3** (confirmed).  Decoding an xref stream with `/W = [1 2 1]` and
`/Index = [4 2]` over payload `01 00 10 00 02 00 0C 02` yields one section
with `first_id = 4` and entries `Raw(offset=16, gen=0)`,
`Compressed(container=12, index=2)` (the source names the compressed
variant `XRef::Stream`); each field is read big-endian at its `/W` width,
and the type dispatch sends 0 to `Free`, 1 to `Raw`, 2 to `Stream`, and
any other value `t` to the `XRefStreamType t` error. -/
theorem C3_xref_stream_decode :
    (parse_xref_sections_from_index [1, 2, 1] [4, 2] [1, 0, 16, 0, 2, 0, 12, 2]
      = .ok ([⟨4, [.Raw 16 0, .Stream 12 2]⟩], [])) ∧
    (∀ f1 f2 : Nat, xref_entry_of_type 0 f1 f2 = .ok (.Free f1 f2)) ∧
    (∀ f1 f2 : Nat, xref_entry_of_type 1 f1 f2 = .ok (.Raw f1 f2)) ∧
    (∀ f1 f2 : Nat, xref_entry_of_type 2 f1 f2 = .ok (.Stream f1 f2)) ∧
    (∀ t f1 f2 : Nat, xref_entry_of_type (t + 3) f1 f2
      = .error (.XRefStreamType (t + 3))) :=
  ⟨rfl, fun _ _ => rfl, fun _ _ => rfl, fun _ _ => rfl, fun _ _ _ => rfl⟩

/-- The XOR loop of `Rc4::encrypt` undoes itself when run twice from the
same PRGA state: each byte is XORed with the same keystream byte both
times. -/
theorem Rc4.encryptBytes_encryptBytes (r : Rc4) (data : List Nat) :
    Rc4.encryptBytes r (Rc4.encryptBytes r data) = data := by
  induction data generalizing r with
  | nil => rfl
  | cons b rest ih => simp [Rc4.encryptBytes, Nat.xor_cancel_right, ih]

/-- **C7** (confirmed).  RC4 encryption is an involution: for every key
whose length lies between 1 and 256 (the bounds `Rc4::new` asserts) and
every byte sequence, encrypting twice with the same key returns the
original data — both runs start from the same key-scheduled state, so each
byte is XORed twice with the same keystream byte. -/
theorem C7_rc4_involution (key data : List Nat)
    (_ : 1 ≤ key.length) (_ : key.length ≤ 256) :
    Rc4.encrypt key (Rc4.encrypt key data) = data :=
  Rc4.encryptBytes_encryptBytes (Rc4.new key) data

/-- Witness for C7 at the spec's own test vector: key `"Key"`, data
`"Plaintext"`. -/
theorem C7_rc4_involution_witness :
    1 ≤ ([75, 101, 121] : List Nat).length ∧
    ([75, 101, 121] : List Nat).length ≤ 256 ∧
    Rc4.encrypt [75, 101, 121]
        (Rc4.encrypt [75, 101, 121] [80, 108, 97, 105, 110, 116, 101, 120, 116])
      = [80, 108, 97, 105, 110, 116, 101, 120, 116] :=
  ⟨by decide, by decide, C7_rc4_involution _ _ (by decide) (by decide)⟩

/-- **C6** (confirmed).  For every MD5 function, crypt dictionary, file id
and password: `Decoder::from_password` succeeds — returning the decoder
built from the Algorithm-2 file key — exactly when the `/U` value recomputed
from that key by Algorithm 5 (`compute_u`) equals the first 16 bytes of the
stored `/U`; otherwise it returns `InvalidPassword`. -/
theorem C6_from_password_iff_u_matches (md5 : List Nat → List Nat)
    (dict : CryptDict) (id pass : List Nat) :
    Decoder.from_password md5 dict id pass =
      if Decoder.compute_u md5 ⟨derive_key md5 dict id pass, dict.bits / 8⟩ id
          = dict.u.take 16
      then .ok ⟨derive_key md5 dict id pass, dict.bits / 8⟩
      else .error .InvalidPassword := by
  simp [Decoder.from_password, Decoder.check_password]

/-- When the parent chain from `id` dereferences successfully within
`fuel` steps (`parentChain` returns the ancestor list `l`), `inherit`
with the `/MediaBox` selector completes and returns the first `/MediaBox`
found on the chain, or `none` when no ancestor carries one. -/
theorem inherit_media_box_eq_chain_head (env : Nat → Except PdfError PageTreeNode) :
    ∀ (fuel id : Nat) (l : List PageTreeNode),
    parentChain env id fuel = some l →
    inherit env (fun pt => pt.media_box.map Except.ok) id fuel =
      some (.ok (l.filterMap (fun pt => pt.media_box)).head?) := by
  intro fuel
  induction fuel with
  | zero => intro id l h; simp [parentChain] at h
  | succ n ih =>
    intro id l h
    simp only [parentChain] at h
    cases henv : env id with
    | error e => rw [henv] at h; simp at h
    | ok pt =>
      rw [henv] at h
      simp only at h
      cases hp : pt.parent with
      | none =>
        rw [hp] at h
        simp only [Option.some.injEq] at h
        subst h
        cases hm : pt.media_box with
        | some b => simp [inherit, henv, hp, hm]
        | none => simp [inherit, henv, hp, hm]
      | some p =>
        rw [hp] at h
        simp only at h
        cases hc : parentChain env p n with
        | none => rw [hc] at h; simp at h
        | some l2 =>
          rw [hc] at h
          simp only [Option.map_some', Option.some.injEq] at h
          subst h
          cases hm : pt.media_box with
          | some b => simp [inherit, henv, hp, hm]
          | none => simp [inherit, henv, hp, hm, ih p l2 hc]

/-- **C5** (confirmed).  For every page whose parent chain dereferences
successfully (within `fuel` steps, with ancestor list `l`),
`Page::media_box` returns the page's own `/MediaBox` if present, else the
first `/MediaBox` on the ancestor chain, else the `MissingEntry` error —
so it succeeds iff the page itself or some ancestor carries a `/MediaBox`
entry. -/
theorem C5_media_box_inheritance (env : Nat → Except PdfError PageTreeNode)
    (page : Page) (fuel : Nat) (l : List PageTreeNode)
    (h : parentChain env page.parent fuel = some l) :
    (Page.media_box_resolved page env fuel =
      match page.media_box with
      | some b => some (.ok b)
      | none =>
        match (l.filterMap (fun pt => pt.media_box)).head? with
        | some b => some (.ok b)
        | none => some (.error (.MissingEntry "Page" "MediaBox"))) ∧
    ((∃ r, Page.media_box_resolved page env fuel = some (.ok r)) ↔
      page.media_box.isSome ∨ l.any (fun pt => pt.media_box.isSome)) := by
  have hkey := inherit_media_box_eq_chain_head env fuel page.parent l h
  constructor
  · match hm : page.media_box with
    | some b => simp [Page.media_box_resolved, hm]
    | none =>
      match hh : (l.filterMap (fun pt => pt.media_box)).head? with
      | some b => simp [Page.media_box_resolved, hm, hkey, hh]
      | none => simp [Page.media_box_resolved, hm, hkey, hh]
  · match hm : page.media_box with
    | some b => simp [Page.media_box_resolved, hm]
    | none =>
      match hh : (l.filterMap (fun pt => pt.media_box)).head? with
      | some b =>
        simp only [Page.media_box_resolved, hm, hkey, hh, Option.isSome_none,
          Bool.false_eq_true, false_or]
        constructor
        · intro _
          have hmem : b ∈ l.filterMap (fun pt => pt.media_box) :=
            List.mem_of_mem_head? (by simp [hh])
          obtain ⟨pt, hpt, hbx⟩ := List.mem_filterMap.mp hmem
          exact List.any_eq_true.mpr ⟨pt, hpt, by simp [hbx]⟩
        · intro _; exact ⟨b, by simp [Page.media_box_resolved, hm, hkey, hh]⟩
      | none =>
        simp only [Page.media_box_resolved, hm, hkey, hh, Option.isSome_none,
          Bool.false_eq_true, false_or]
        constructor
        · intro ⟨r, hr⟩; simp at hr
        · intro hany
          obtain ⟨pt, hpt, hbx⟩ := List.any_eq_true.mp hany
          obtain ⟨b, hb⟩ := Option.isSome_iff_exists.mp hbx
          have : b ∈ l.filterMap (fun pt => pt.media_box) :=
            List.mem_filterMap.mpr ⟨pt, hpt, hb⟩
          rw [List.head?_eq_none_iff.mp hh] at this
          simp at this

/-- Witness for C5: the two-node chain `c5Env` starting at `c5Page`
(whose own `/MediaBox` is absent) resolves to the root's `/MediaBox`. -/
theorem C5_media_box_inheritance_witness :
    parentChain c5Env 1 2 = some [c5Node1, c5Node2] ∧
    Page.media_box_resolved c5Page c5Env 2 = some (.ok c5Rect) := by
  refine ⟨by decide, ?_⟩
  have := (C5_media_box_inheritance c5Env c5Page 2 [c5Node1, c5Node2] (by decide)).1
  simpa [c5Page, c5Node1, c5Node2] using this

/-- **C4** (code bug).  Parsing `<</Length 1>> stream\n\nXendstream\n`:
after the `stream` keyword the lexer's `next()` skips **all** following
whitespace (`next_word`'s final loop, `lexer/mod.rs` lines 122-124), here
both newline bytes, and the parser then takes `/Length = 1` byte from that
position — so the returned payload is `X` (byte 88).  Under the claim (and
PDF 1.7), only a single EOL may be consumed, the payload would be the
second newline byte `\n`, and `endstream` would have to follow it
immediately (which it does not) — so the claim fails on this input.  The
final cursor stands at 33, past `endstream\n`, because `next_expect`
likewise tolerates the whitespace preceding `endstream`. -/
theorem C4_stream_payload_skips_all_whitespace :
    parse no_resolve 10 c4Input
      = some (.ok (.Stream [(keyLength, .Integer 1)] [88], ⟨33, c4Input⟩)) := rfl

/-- **C8** counterexample.  The claim's example input, the exact bytes
`123 45 R`, does **not** parse to `Reference{id:123, gen:45}`: the lexeme
`R` runs to the very end of the buffer, the word loop of `next_word` calls
`advance_pos` at `pos = buf.len()`, and the parse fails with `EOF`. -/
theorem C8_reference_at_buffer_end_is_eof :
    parse no_resolve 10 c8CounterInput = some (.error .EOF) := rfl

/-- **C8** (corrected).  When the parser's first lexeme is an integer, it
tries to read further lexemes: if the second is an integer and the third
equals `R`, the result is a `Reference` whose id and gen are the `u64`
parses of the first two lexemes; otherwise the parser rolls the lexer back
to the single saved position `pos_bk` — the cursor position right after
the first integer lexeme (`l1.pos`) — and returns the first lexeme as an
`Integer`.  (The claim's literal example needs a byte after the `R`; see
`C8_reference_at_buffer_end_is_eof`.) -/
theorem C8_integer_reference_rollback
    (resolve : PlainRef → Except PdfError Primitive) (fuel : Nat)
    (L l1 l2 : Lexer) (w1 w2 : List Nat)
    (h1 : Lexer.nextL L = some (.ok (w1, l1)))
    (hInt1 : Substr.is_integer w1 = true)
    (h2 : Lexer.nextL l1 = some (.ok (w2, l2))) :
    (∀ w3 l3 idv genv, Lexer.nextL l2 = some (.ok (w3, l3)) →
      Substr.is_integer w2 = true → w3 = [82] →
      parse_u64 w1 = .ok idv → parse_u64 w2 = .ok genv →
      parse_with_lexer resolve (fuel + 1) L
        = some (.ok (.Reference ⟨idv, genv⟩, l3))) ∧
    (∀ w3 l3 n, Lexer.nextL l2 = some (.ok (w3, l3)) →
      Substr.is_integer w2 = true → w3 ≠ [82] →
      parse_i32 w1 = .ok n →
      parse_with_lexer resolve (fuel + 1) L
        = (match Lexer.set_pos l3 l1.pos with
           | .error e => some (.error e)
           | .ok p => some (.ok (.Integer n, p.2)))) ∧
    (∀ n, Substr.is_integer w2 = false →
      parse_i32 w1 = .ok n →
      parse_with_lexer resolve (fuel + 1) L
        = (match Lexer.set_pos l2 l1.pos with
           | .error e => some (.error e)
           | .ok p => some (.ok (.Integer n, p.2)))) := by
  have hne : w1 ≠ [60, 60] := by
    intro hh
    rw [hh] at hInt1
    exact absurd hInt1 (by decide)
  refine ⟨?_, ?_, ?_⟩
  · intro w3 l3 idv genv h3 hInt2 hR hid hgen
    subst hR
    simp only [parse_with_lexer, h1, hne, hInt1, h2, hInt2, h3, hid, hgen,
      if_true, if_false, reduceIte]
  · intro w3 l3 n h3 hInt2 hnR hn
    simp only [parse_with_lexer, h1, hne, hInt1, h2, hInt2, h3, hnR, hn,
      if_true, if_false, reduceIte]
    cases hsp : Lexer.set_pos l3 l1.pos with
    | error e => rfl
    | ok p => rfl
  · intro n hInt2 hn
    simp only [parse_with_lexer, h1, hne, hInt1, h2, hInt2, hn,
      if_true, if_false, reduceIte]
    cases hsp : Lexer.set_pos l2 l1.pos with
    | error e => rfl
    | ok p => rfl

/-- Witness for C8 at the input `123 45 R ` (a trailing space after `R`):
the pattern `int int R` matches and the parse returns
`Reference{id:123, gen:45}` with the cursor after the `R`. -/
theorem C8_integer_reference_rollback_witness :
    Lexer.nextL (⟨0, c8Input⟩ : Lexer) = some (.ok ([49, 50, 51], ⟨4, c8Input⟩)) ∧
    Substr.is_integer [49, 50, 51] = true ∧
    parse_with_lexer no_resolve 10 ⟨0, c8Input⟩
      = some (.ok (.Reference ⟨123, 45⟩, ⟨9, c8Input⟩)) :=
  ⟨rfl, rfl,
    (C8_integer_reference_rollback no_resolve 9 ⟨0, c8Input⟩ ⟨4, c8Input⟩
        ⟨7, c8Input⟩ [49, 50, 51] [52, 53] rfl rfl rfl).1
      [82] ⟨9, c8Input⟩ 123 45 rfl rfl rfl rfl rfl⟩

/-- **C9** (code bug).  `Lexer::peek` takes `&self`, so it can never move
the cursor (in the embedding it returns no updated lexer); and when
`next_word` reports `EOF` — which, going forward, happens exactly when a
word lexeme runs to the very end of the buffer, as on `"abc"` — `peek`
indeed returns the empty substring.  But when the cursor stands at the end
of the buffer (here: the empty buffer), so that no further lexeme exists,
`next_word` indexes `self.buf[pos]` out of bounds at line 83 and panics
instead of returning the empty substring its own doc comment ("Will return
empty substr if the next character is EOF") promises; the panic is
independent of the fuel. -/
theorem C9_peek_at_end_panics :
    (∀ fuel, Lexer.peek ⟨0, []⟩ (fuel + 1) = some (.error .Panic)) ∧
    Lexer.peek ⟨0, [97, 98, 99]⟩ 5 = some (.ok []) :=
  ⟨fun _ => rfl, rfl⟩

/-- The comment loop of `next_word` on the buffer `"%"`: the `%` has no
following newline, `pos` never moves, and no amount of fuel completes the
loop. -/
theorem skip_comments_unterminated (wsfuel : Nat) :
    ∀ fuel, skip_comments [37] true wsfuel fuel 0 = none := by
  intro fuel
  induction fuel with
  | zero => rfl
  | succ n ih =>
    cases wsfuel with
    | zero => rfl
    | succ w => simpa [skip_comments, find_newline, skip_ws, is_whitespace] using ih

/-- **C10** (code bug).  On the one-byte buffer `"%"` — a `%` comment not
terminated by a newline — `Lexer::next` never terminates: for every fuel
the embedded loop reports `none` (fuel exhausted), because the source's
comment loop at `lexer/mod.rs` lines 83-92 leaves `pos` unchanged when
`position(.. == b'\n')` finds nothing and then re-tests the same `%`
byte forever.  The claim that `next()` always terminates on a finite
buffer fails on this input. -/
theorem C10_next_diverges_on_unterminated_comment :
    ∀ fuel, Lexer.next ⟨0, [37]⟩ fuel = none := by
  intro fuel
  cases fuel with
  | zero => rfl
  | succ n =>
    simp [Lexer.next, next_word, skip_ws, is_whitespace,
      skip_comments_unterminated (n + 1) (n + 1)]

end PdfV
